import Mathlib

/- Shallow embedding of the retrieval-cache-normalization pipeline of
`src/sat_data.py`.  JSON values and pandas DataFrame cells are modelled by
`Val`; `pd.json_normalize` is modelled by `json_normalize` (nested
dictionaries are flattened to dotted column paths, to the nesting depth
occurring in the DISCOS API payloads; lists and `null` stay in place, and a
row missing a column reads as `nan`); the pandas column operations used by
the source are modelled by `dfDrop`, `dfRename` and `dfApply`, with the same
error behaviour (`drop` and column subscripting raise `KeyError` on absent
columns).  Python exceptions are modelled by the `SatErr` error type of an
`Except` result. -/

set_option maxRecDepth 100000

namespace SatData

/-- JSON values and pandas cells.  `nan` models `np.nan` (a missing or
null-filled cell), `ts` models a parsed pandas timestamp (its calendar-date
part). -/
inductive Val where
  | null
  | nan
  | bool (b : Bool)
  | int (n : Int)
  | str (s : String)
  | arr (xs : List Val)
  | obj (kvs : List (String × Val))
  | ts (y m d : Nat)

/-- Python exceptions raised by the pipeline.  `myError` is the source's
`MyError` (the spec's ApiError), carrying the server error payload;
`keyError`/`keyErrorCols`/`valueError`/`typeError` model the corresponding
Python/pandas exceptions; `unboundLocal` models the `UnboundLocalError` at
the `return` of `discos_params` for an unknown database name; `readError`
models a `pd.read_csv` failure on an unreadable file. -/
inductive SatErr where
  | myError (payload : Val)
  | keyError (k : String)
  | keyErrorCols (cs : List String)
  | valueError (s : String)
  | typeError (s : String)
  | unboundLocal
  | readError (f : String)

/-- Association-list lookup, modelling Python `dict` subscripting. -/
def alookup {α : Type} : List (String × α) → String → Option α
  | [], _ => none
  | (k, v) :: rest, key => if k = key then some v else alookup rest key

/-- Flattening of a nested JSON object one level below a dotted path prefix:
a plain value stays at its path, a nested dictionary contributes its keys
under `prefix.key`.  `flat1`/`flat2`/`flat3` unroll this to the nesting
depth that occurs in DISCOS records (e.g. `relationships.launch.data.id`). -/
def flatLeaf (k : String) (v : Val) : List (String × Val) := [(k, v)]

def flat1 (k : String) (v : Val) : List (String × Val) :=
  match v with
  | .obj kvs => kvs.foldr (fun p acc => flatLeaf (k ++ "." ++ p.1) p.2 ++ acc) []
  | _ => [(k, v)]

def flat2 (k : String) (v : Val) : List (String × Val) :=
  match v with
  | .obj kvs => kvs.foldr (fun p acc => flat1 (k ++ "." ++ p.1) p.2 ++ acc) []
  | _ => [(k, v)]

def flat3 (k : String) (v : Val) : List (String × Val) :=
  match v with
  | .obj kvs => kvs.foldr (fun p acc => flat2 (k ++ "." ++ p.1) p.2 ++ acc) []
  | _ => [(k, v)]

/-- One raw record flattened to dotted-path cells, modelling what
`pd.json_normalize` does to a single dictionary. -/
def flattenRecord (v : Val) : List (String × Val) :=
  match v with
  | .obj kvs => kvs.foldr (fun p acc => flat3 p.1 p.2 ++ acc) []
  | _ => []

/-- A pandas DataFrame: a column list plus one association list of cells per
row.  A row missing a column holds `nan` there (see `rowGet`). -/
structure DataFrame where
  cols : List String
  rows : List (List (String × Val))

/-- Cell access in a row; a missing key is a `NaN` cell, as in a DataFrame
built by `pd.json_normalize` from heterogeneous records. -/
def rowGet (row : List (String × Val)) (c : String) : Val :=
  (alookup row c).getD .nan

/-- Column union in order of first appearance, as produced by
`pd.json_normalize` over a record list. -/
def dedupCols (ks : List String) : List String :=
  ks.foldl (fun acc k => if k ∈ acc then acc else acc ++ [k]) []

/-- Model of `pd.json_normalize` applied to a list of raw records. -/
def json_normalize (recs : List Val) : DataFrame :=
  let flats := recs.map flattenRecord
  { cols := dedupCols (flats.foldr (fun r acc => r.map Prod.fst ++ acc) []),
    rows := flats }

/-- Model of `df.drop(columns = cs, inplace = True)`: raises `KeyError`
listing the missing labels when any requested column is absent. -/
def dfDrop (df : DataFrame) (cs : List String) : Except SatErr DataFrame :=
  let missing := cs.filter (fun c => !(df.cols.contains c))
  if missing.isEmpty then
    .ok { cols := df.cols.filter (fun c => !(cs.contains c)),
          rows := df.rows.map (fun r => r.filter (fun kv => !(cs.contains kv.1))) }
  else .error (.keyErrorCols missing)

/-- Key translation of `df.rename(columns = m)`: columns absent from the
map are kept unchanged. -/
def renameKey (m : List (String × String)) (k : String) : String :=
  (alookup m k).getD k

/-- Model of `df.rename(columns = m, inplace = True)`. -/
def dfRename (df : DataFrame) (m : List (String × String)) : DataFrame :=
  { cols := df.cols.map (renameKey m),
    rows := df.rows.map (fun r => r.map (fun kv => (renameKey m kv.1, kv.2))) }

/-- Replace (or add) one cell of a row. -/
def setKV : List (String × Val) → String → Val → List (String × Val)
  | [], c, v => [(c, v)]
  | (k, w) :: rest, c, v =>
    if k = c then (c, v) :: rest else (k, w) :: setKV rest c v

/-- Model of `df[c] = df[c].apply(f)`: subscripting an absent column raises
`KeyError`; an exception raised by `f` on any cell propagates. -/
def dfApply (df : DataFrame) (c : String) (f : Val → Except SatErr Val) :
    Except SatErr DataFrame :=
  if df.cols.contains c then do
    let rows ← df.rows.mapM (fun r => do
      let v ← f (rowGet r c)
      pure (setKV r c v))
    pure { cols := df.cols, rows := rows }
  else .error (.keyError c)

/-- Python truthiness of a cell (`not x` in the coercion lambdas).  Note
that `np.nan` is truthy in Python. -/
def pyFalsy : Val → Bool
  | .null => true
  | .nan => false
  | .bool b => !b
  | .int n => n == 0
  | .str s => s == ""
  | .arr xs => xs.isEmpty
  | .obj kvs => kvs.isEmpty
  | .ts _ _ _ => false

/-- Model of `x['id']` on a reference object. -/
def getId (x : Val) : Except SatErr Val :=
  match x with
  | .obj kvs =>
    match alookup kvs "id" with
    | some v => .ok v
    | none => .error (.keyError "id")
  | _ => .error (.typeError "subscript")

/-- Model of Python `str(...)` on the cell values that occur here. -/
def pyStr : Val → String
  | .int n => toString n
  | .str s => s
  | .null => "None"
  | .nan => "nan"
  | .bool b => if b then "True" else "False"
  | .arr _ => "list"
  | .obj _ => "dict"
  | .ts _ _ _ => "Timestamp"

/-- Model of Python `int(...)` on the cell values that occur here. -/
def pyInt (x : Val) : Except SatErr Int :=
  match x with
  | .int n => .ok n
  | .bool b => .ok (if b then 1 else 0)
  | .str s =>
    match s.toInt? with
    | some n => .ok n
    | none => .error (.valueError s)
  | _ => .error (.typeError "int")

/-- The reference-coercion lambda of `clean_discos_objects`:
`lambda x: np.nan if not x else (str(x[0]['id']) if len(x) == 1 else
[str(xi['id']) for xi in x])`. -/
def coerce_ref (x : Val) : Except SatErr Val :=
  if pyFalsy x then .ok .nan
  else
    match x with
    | .arr [x0] => (getId x0).map (fun v => .str (pyStr v))
    | .arr xs =>
      (xs.mapM (fun xi => (getId xi).map (fun v => Val.str (pyStr v)))).map .arr
    | _ => .error (.typeError "len")

/-- The scalar-id coercion `lambda x: np.nan if x is None else str(x)` used
for `VimpelId` and `LaunchSiteId`. -/
def coerce_str_or_nan (x : Val) : Except SatErr Val :=
  match x with
  | .null => .ok .nan
  | v => .ok (.str (pyStr v))

/-- The fragmentation-objects coercion
`lambda x: list(int(xx['id']) for xx in x)`: always a list of integer ids,
raising `TypeError` when the cell is not a list (e.g. `np.nan`). -/
def coerce_frag_ids (x : Val) : Except SatErr Val :=
  match x with
  | .arr xs =>
    (xs.mapM (fun xi => (getId xi).bind pyInt)).map
      (fun ns => .arr (ns.map Val.int))
  | _ => .error (.typeError "iter")

/-- Calendar dates `(year, month, day)`, as carried by `datetime` values
and embedded in cache file names. -/
structure Date where
  y : Nat
  m : Nat
  d : Nat
deriving DecidableEq, Repr

/-- Day count of a civil date (standard days-from-civil algorithm), used to
model `datetime` subtraction exactly.  Comparisons of the source's
`timedelta` values against whole-day thresholds reduce to comparisons of
these integer day differences. -/
def daysFromCivil (dt : Date) : Int :=
  let y : Int := if dt.m ≤ 2 then (dt.y : Int) - 1 else (dt.y : Int)
  let m : Int := (dt.m : Int)
  let d : Int := (dt.d : Int)
  let era : Int := (if 0 ≤ y then y else y - 399) / 400
  let yoe : Int := y - era * 400
  let doy : Int := (153 * (if 2 < m then m - 3 else m + 9) + 2) / 5 + d - 1
  let doe : Int := yoe * 365 + yoe / 4 - yoe / 100 + doy
  era * 146097 + doe - 719468

/-- Age in whole days of a file date relative to `now`, modelling
`dt.datetime.now() - f_date`. -/
def ageDays (now : Date) (y m d : Nat) : Int :=
  daysFromCivil now - daysFromCivil ⟨y, m, d⟩

def isLeap (y : Nat) : Bool :=
  y % 4 == 0 && (y % 100 != 0 || y % 400 == 0)

def daysInMonth (y m : Nat) : Nat :=
  if m == 2 then (if isLeap y then 29 else 28)
  else if m == 4 || m == 6 || m == 9 || m == 11 then 30
  else 31

/-- Calendar validity enforced by `datetime.strptime(_, '%Y-%m-%d')`: a
regex-matched `\d{4}-\d{2}-\d{2}` stamp parses only when it denotes a real
date (month 1-12, day within the month); otherwise `strptime` raises
`ValueError`. -/
def strptimeValid (y m d : Nat) : Bool :=
  decide (1 ≤ y ∧ y ≤ 9999 ∧ 1 ≤ m ∧ m ≤ 12 ∧ 1 ≤ d ∧ d ≤ daysInMonth y m)

/-- Decimal digit character, used to model `strftime` zero-padded fields. -/
def digitChar (n : Nat) : Char := Char.ofNat (48 + n % 10)

/-- Numeric value of a digit character. -/
def charVal (c : Char) : Nat := c.toNat - 48

/-- The `YYYY-MM-DD` rendering of `strftime('%Y-%m-%d')` (zero-padded;
faithful for the field ranges a `datetime` can hold). -/
def dateStrOf (y m d : Nat) : String :=
  String.mk [digitChar (y / 1000), digitChar (y / 100), digitChar (y / 10),
             digitChar y, '-', digitChar (m / 10), digitChar m, '-',
             digitChar (d / 10), digitChar d]

def dateStr (dt : Date) : String := dateStrOf dt.y dt.m dt.d

/-- Does the list of characters begin with a `\d{4}-\d{2}-\d{2}` match?  If
so, return the three numeric fields. -/
def dateShape10 : List Char → Option (Nat × Nat × Nat)
  | a :: b :: c :: d :: k1 :: e :: f :: k2 :: g :: h :: _ =>
    if a.isDigit && b.isDigit && c.isDigit && d.isDigit && k1 == '-' &&
       e.isDigit && f.isDigit && k2 == '-' && g.isDigit && h.isDigit then
      some (charVal a * 1000 + charVal b * 100 + charVal c * 10 + charVal d,
            charVal e * 10 + charVal f,
            charVal g * 10 + charVal h)
    else none
  | _ => none

/-- Fuel-indexed scan for non-overlapping `\d{4}-\d{2}-\d{2}` matches,
modelling `re.findall(r'\d{4}-\d{2}-\d{2}', _)`: after a match the scan
resumes past its ten characters, otherwise it advances one character. -/
def scanDatesAux : Nat → List Char → List (Nat × Nat × Nat)
  | 0, _ => []
  | _ + 1, [] => []
  | fuel + 1, c :: rest =>
    match dateShape10 (c :: rest) with
    | some v => v :: scanDatesAux fuel (List.drop 9 rest)
    | none => scanDatesAux fuel rest

def scanDates (l : List Char) : List (Nat × Nat × Nat) :=
  scanDatesAux l.length l

/-- The last regex match in a file name (`re.findall(...)[-1]`), or `none`
when the name has no date-shaped substring. -/
def findLastDate (s : String) : Option (Nat × Nat × Nat) :=
  (scanDates s.data).getLast?

/-- Model of `pd.to_datetime` on a cell as used for `Epoch` columns: an
ISO-like string is parsed via its 10-character date part, a missing cell
becomes `NaT` (modelled by `nan`), an unparsable string raises. -/
def parseEpoch (x : Val) : Except SatErr Val :=
  match x with
  | .nan => .ok .nan
  | .null => .ok .nan
  | .ts y m d => .ok (.ts y m d)
  | .str s =>
    match dateShape10 s.data with
    | some (y, m, d) =>
      if strptimeValid y m d then .ok (.ts y m d) else .error (.valueError s)
    | none => .error (.valueError s)
  | _ => .error (.typeError "datetime")

def objectsDropCols : List String :=
  ["type",
   "relationships.states.links.self",
   "relationships.states.links.related",
   "relationships.initialOrbits.links.self",
   "relationships.initialOrbits.links.related",
   "relationships.launch.links.self",
   "relationships.launch.links.related",
   "relationships.launch.data.type",
   "relationships.reentry.links.self",
   "relationships.reentry.links.related",
   "relationships.reentry.data.type",
   "relationships.operators.links.self",
   "relationships.operators.links.related",
   "relationships.destinationOrbits.links.self",
   "relationships.destinationOrbits.links.related",
   "relationships.reentry.data",
   "relationships.launch.data",
   "links.self"]

def objectsRenameCols : List (String × String) :=
  [("id", "DiscosID"),
   ("attributes.cosparId", "IntlDes"),
   ("attributes.xSectAvg", "XSectAvg"),
   ("attributes.depth", "Depth"),
   ("attributes.xSectMin", "XSectMin"),
   ("attributes.vimpelId", "VimpelId"),
   ("attributes.shape", "Shape"),
   ("attributes.satno", "SatNo"),
   ("attributes.name", "SatName"),
   ("attributes.height", "Height"),
   ("attributes.objectClass", "ObjectType"),
   ("attributes.mass", "Mass"),
   ("attributes.xSectMax", "XSectMax"),
   ("attributes.length", "Length"),
   ("relationships.initialOrbits.data", "InitOrbitId"),
   ("relationships.launch.data.id", "LaunchId"),
   ("relationships.reentry.data.id", "ReentryId"),
   ("relationships.operators.data", "OperatorId"),
   ("relationships.destinationOrbits.data", "DestOrbitId")]

/-- Model of `clean_discos_objects`. -/
def clean_discos_objects (df : DataFrame) : Except SatErr DataFrame := do
  let df ← dfDrop df objectsDropCols
  let df := dfRename df objectsRenameCols
  let df ← dfApply df "InitOrbitId" coerce_ref
  let df ← dfApply df "DestOrbitId" coerce_ref
  let df ← dfApply df "OperatorId" coerce_ref
  let df ← dfApply df "VimpelId" coerce_str_or_nan
  pure df

def launchesDropCols : List String :=
  ["type",
   "relationships.site.links.self",
   "relationships.site.links.related",
   "relationships.site.data.type",
   "relationships.objects.links.self",
   "relationships.objects.links.related",
   "relationships.entities.links.self",
   "relationships.entities.links.related",
   "relationships.vehicle.links.self",
   "relationships.vehicle.links.related",
   "relationships.site.data",
   "links.self"]

def launchesRenameCols : List (String × String) :=
  [("id", "LaunchId"),
   ("relationships.site.data.id", "LaunchSiteId"),
   ("attributes.epoch", "Epoch"),
   ("attributes.flightNo", "FlightNo"),
   ("attributes.failure", "Failure"),
   ("attributes.cosparLaunchNo", "CosparLaunchNo")]

/-- Model of `clean_discos_launches`. -/
def clean_discos_launches (df : DataFrame) : Except SatErr DataFrame := do
  let df ← dfDrop df launchesDropCols
  let df := dfRename df launchesRenameCols
  let df ← dfApply df "LaunchSiteId" coerce_str_or_nan
  let df ← dfApply df "Epoch" parseEpoch
  pure df

def reentriesDropCols : List String :=
  ["type",
   "relationships.objects.links.self",
   "relationships.objects.links.related",
   "links.self"]

def reentriesRenameCols : List (String × String) :=
  [("id", "ReentryId"),
   ("attributes.epoch", "Epoch")]

/-- Model of `clean_discos_reentries`. -/
def clean_discos_reentries (df : DataFrame) : Except SatErr DataFrame := do
  let df ← dfDrop df reentriesDropCols
  let df := dfRename df reentriesRenameCols
  let df ← dfApply df "Epoch" parseEpoch
  pure df

def launchsitesDropCols : List String :=
  ["type",
   "relationships.launches.links.self",
   "relationships.launches.links.related",
   "relationships.operators.links.self",
   "relationships.operators.links.related",
   "links.self"]

def launchsitesRenameCols : List (String × String) :=
  [("id", "LaunchSiteId"),
   ("attributes.constraints", "Constraints"),
   ("attributes.pads", "Pads"),
   ("attributes.altitude", "Altitude"),
   ("attributes.latitude", "Latitude"),
   ("attributes.azimuths", "Azimuths"),
   ("attributes.name", "Name"),
   ("attributes.longitude", "Longitude")]

/-- Model of `clean_discos_launchsites`. -/
def clean_discos_launchsites (df : DataFrame) : Except SatErr DataFrame := do
  let df ← dfDrop df launchsitesDropCols
  let df := dfRename df launchsitesRenameCols
  pure df

def orbitsDropCols : List String :=
  ["type",
   "relationships.object.links.self",
   "relationships.object.links.related",
   "links.self"]

def orbitsRenameCols : List (String × String) :=
  [("id", "OrbitId"),
   ("attributes.sma", "SemiMajorAxis"),
   ("attributes.epoch", "Epoch"),
   ("attributes.aPer", "ArgPeriapsis"),
   ("attributes.inc", "Inclination"),
   ("attributes.mAno", "MeanAnomoly"),
   ("attributes.ecc", "Eccentricity"),
   ("attributes.raan", "RAAN"),
   ("attributes.frame", "RefFrame")]

/-- Model of `clean_discos_orbits`. -/
def clean_discos_orbits (df : DataFrame) : Except SatErr DataFrame := do
  let df ← dfDrop df orbitsDropCols
  let df := dfRename df orbitsRenameCols
  pure df

def fragmentationsDropCols : List String :=
  ["type",
   "relationships.objects.links.self",
   "relationships.objects.links.related",
   "links.self"]

def fragmentationsRenameCols : List (String × String) :=
  [("id", "FragmentationId"),
   ("attributes.eventType", "eventType"),
   ("attributes.longitude", "Longitude"),
   ("attributes.comment", "Comment"),
   ("attributes.epoch", "Epoch"),
   ("attributes.latitude", "Latitude"),
   ("attributes.altitude", "Altitude"),
   ("relationships.objects.data", "DiscosIds")]

/-- Model of `clean_discos_fragmentations`. -/
def clean_discos_fragmentations (df : DataFrame) : Except SatErr DataFrame := do
  let df ← dfDrop df fragmentationsDropCols
  let df := dfRename df fragmentationsRenameCols
  let df ← dfApply df "Epoch" parseEpoch
  let df ← dfApply df "DiscosIds" coerce_frag_ids
  pure df

/-- Model of `clean_discos`: dictionary dispatch on the database name; a
name outside the table raises `KeyError`. -/
def clean_discos (database : String) (df : DataFrame) : Except SatErr DataFrame :=
  if database = "objects" then clean_discos_objects df
  else if database = "launches" then clean_discos_launches df
  else if database = "reentries" then clean_discos_reentries df
  else if database = "launch-sites" then clean_discos_launchsites df
  else if database = "initial-orbits" then clean_discos_orbits df
  else if database = "fragmentations" then clean_discos_fragmentations df
  else .error (.keyError database)

/-- The query-parameter dictionaries built by `discos_params`.  `page[size]`
is fixed at 100 everywhere; `include`/`sort` are set per dataset. -/
structure DiscosParams where
  includeRel : Option String
  sortBy : Option String
  pageNumber : Nat
  pageSize : Nat
deriving DecidableEq, Repr

/-- Model of `discos_params`: each handled database name assigns the local
variable; any other name leaves it unassigned, so the `return` raises
`UnboundLocalError` (modelled by `none`, turned into
`SatErr.unboundLocal` by the fetcher). -/
def discos_params (database : String) : Option DiscosParams :=
  if database = "objects" then
    some ⟨some "launch,reentry,initialOrbits,destinationOrbits,operators",
          some "satno", 1, 100⟩
  else if database = "launches" then some ⟨some "site", none, 1, 100⟩
  else if database = "launch-systems" then some ⟨none, none, 1, 100⟩
  else if database = "launch-sites" then some ⟨none, none, 1, 100⟩
  else if database = "initial-orbits" then some ⟨none, none, 1, 100⟩
  else if database = "destination-orbits" then some ⟨none, none, 1, 100⟩
  else if database = "fragmentation-event-types" then some ⟨none, none, 1, 100⟩
  else if database = "fragmentations" then some ⟨some "objects", none, 1, 100⟩
  else if database = "reentries" then some ⟨none, none, 1, 100⟩
  else if database = "entities" then some ⟨none, none, 1, 100⟩
  else none

/-- One HTTP response from the mock transport: success flag, the two
rate-limit headers (absent headers are `none` and raise `KeyError` when
subscripted), and the JSON body fields the source reads (`data`,
`meta.pagination.totalPages`, `error`; an absent field raises `KeyError`
when subscripted). -/
structure Response where
  ok : Bool
  xRatelimitRemaining : Option Int
  retryAfter : Option ℚ
  dataField : Option (List Val)
  totalPages : Option Nat
  errorPayload : Option Val

/-- A transport environment: the k-th `requests.get` issued during one
fetch receives `env k`.  The request log records, for each issued request,
the page number it asked for and the simulated clock time (seconds, started
at 0 and advanced only by `time.sleep`) at which it was issued. -/
abbrev Transport := Nat → Response

abbrev ReqLog := List (Nat × ℚ)

/-- The page loop of `retrieve_discos_data` (`for page in
range(2, last_page + 1)`).  For each page: issue the request, read that
response's `X-Ratelimit-Remaining`; if zero, sleep `Retry-After + 5`
seconds and issue the same page request once more; then read `data` from
the last response and append its records.  Note no `response.ok` check
happens here. -/
def fetchLoop (env : Transport) :
    Nat → Nat → Nat → ℚ → List Val → ReqLog →
    Except SatErr (List Val) × ReqLog
  | 0, _, _, _, acc, log => (.ok acc, log)
  | pagesLeft + 1, page, k, t, acc, log =>
    let resp := env k
    let log1 := log ++ [(page, t)]
    match resp.xRatelimitRemaining with
    | none => (.error (.keyError "X-Ratelimit-Remaining"), log1)
    | some lim =>
      if lim == 0 then
        match resp.retryAfter with
        | none => (.error (.keyError "Retry-After"), log1)
        | some ra =>
          let t2 := t + (ra + 5)
          let resp2 := env (k + 1)
          let log2 := log1 ++ [(page, t2)]
          match resp2.dataField with
          | none => (.error (.keyError "data"), log2)
          | some dat => fetchLoop env pagesLeft (page + 1) (k + 2) t2 (acc ++ dat) log2
      else
        match resp.dataField with
        | none => (.error (.keyError "data"), log1)
        | some dat => fetchLoop env pagesLeft (page + 1) (k + 1) t (acc ++ dat) log1

/-- The raw-record portion of `retrieve_discos_data`: build parameters,
issue the first page request, abort with `MyError` (carrying
`response.json()['error']`) when that response is not ok, read `data` and
`meta.pagination.totalPages`, then run the page loop.  The accumulated raw
records correspond row-for-row to the source's appended
`pd.json_normalize` frames. -/
def retrieve_discos_raw (database : String) (env : Transport) :
    Except SatErr (List Val) × ReqLog :=
  match discos_params database with
  | none => (.error .unboundLocal, [])
  | some _ =>
    let resp := env 0
    let log : ReqLog := [(1, (0 : ℚ))]
    if resp.ok then
      match resp.dataField with
      | none => (.error (.keyError "data"), log)
      | some dat =>
        match resp.totalPages with
        | none => (.error (.keyError "meta"), log)
        | some lastPage => fetchLoop env (lastPage - 1) 2 1 0 dat log
    else
      match resp.errorPayload with
      | some p => (.error (.myError p), log)
      | none => (.error (.keyError "error"), log)

/-- Model of `retrieve_discos_data`: fetch all pages, then normalize and
clean (the source accumulates per-page `pd.json_normalize` frames with
`df.append`, which yields the same cells as normalizing the concatenated
record list). -/
def retrieve_discos_data (database : String) (env : Transport) :
    Except SatErr DataFrame × ReqLog :=
  match retrieve_discos_raw database env with
  | (.error e, log) => (.error e, log)
  | (.ok recs, log) =>
    match clean_discos database (json_normalize recs) with
    | .ok df => (.ok df, log)
    | .error e => (.error e, log)

/-- One file of the cache directory: its name and its content as seen by
`pd.read_csv` (`none` when the file cannot be read; the delimited
serialization itself is abstracted). -/
structure CacheFile where
  name : String
  content : Option DataFrame

/-- The cache directory `./esa_data` (names are relative to it). -/
structure FileSys where
  files : List CacheFile

/-- Model of `read_data` on a file name: an unreadable or missing file
makes `pd.read_csv` raise. -/
def readFS (fs : FileSys) (n : String) : Except SatErr DataFrame :=
  match fs.files.find? (fun f => f.name == n) with
  | some f =>
    match f.content with
    | some df => .ok df
    | none => .error (.readError n)
  | none => .error (.readError n)

/-- Model of `df.to_csv(path)`: writes the file, replacing any existing
file of the same name. -/
def writeFS (fs : FileSys) (n : String) (df : DataFrame) : FileSys :=
  if fs.files.any (fun f => f.name == n) then
    { files := fs.files.map (fun f =>
        if f.name == n then { name := n, content := some df } else f) }
  else { files := fs.files ++ [{ name := n, content := some df }] }

/-- The output file name of `write_data`:
`{database}_{now:%Y-%m-%d}.csv`. -/
def cacheName (database : String) (now : Date) : String :=
  database ++ "_" ++ dateStr now ++ ".csv"

/-- Model of `glob.glob('./esa_data/{database}_*')`. -/
def candidateFiles (fs : FileSys) (database : String) : List CacheFile :=
  fs.files.filter (fun f => (database ++ "_").data.isPrefixOf f.name.data)

/-- The freshness scan of `get_data` over the candidate files, carrying the
running minimum age (days, started at 365) and the chosen file name.  A
name without a date-shaped substring is skipped; a date-shaped stamp that
is not a valid calendar date makes `strptime` raise. -/
def scanCandidates (now : Date) :
    List CacheFile → Int → Option String → Except SatErr (Int × Option String)
  | [], m, r => .ok (m, r)
  | f :: rest, m, r =>
    match findLastDate f.name with
    | none => scanCandidates now rest m r
    | some (y, mo, d) =>
      if strptimeValid y mo d then
        let delta := ageDays now y mo d
        if delta < m then scanCandidates now rest delta (some f.name)
        else scanCandidates now rest m r
      else .error (.valueError (dateStrOf y mo d))

/-- Model of `get_data`: with no candidate files, fetch and write; with
candidates, scan for the most recent one and read it when its age is
strictly below 365 days, otherwise fetch and write.  The result carries the
returned DataFrame (or the raised exception), the cache directory after the
call, and the request log. -/
def get_data (database : String) (fs : FileSys) (now : Date) (env : Transport) :
    Except SatErr DataFrame × FileSys × ReqLog :=
  let filelist := candidateFiles fs database
  if filelist.isEmpty then
    match retrieve_discos_data database env with
    | (.ok df, log) => (.ok df, writeFS fs (cacheName database now) df, log)
    | (.error e, log) => (.error e, fs, log)
  else
    match scanCandidates now filelist 365 none with
    | .error e => (.error e, fs, [])
    | .ok (minD, recent) =>
      if minD < 365 then
        match recent with
        | some f => (readFS fs f, fs, [])
        | none => (.error .unboundLocal, fs, [])
      else
        match retrieve_discos_data database env with
        | (.ok df, log) => (.ok df, writeFS fs (cacheName database now) df, log)
        | (.error e, log) => (.error e, fs, log)

/-- Did an `Except` computation succeed? -/
def exOk {α : Type} : Except SatErr α → Bool
  | .ok _ => true
  | .error _ => false

/-- The rows of a successful cleaning result (empty on failure). -/
def rowsOf (e : Except SatErr DataFrame) : List (List (String × Val)) :=
  match e with
  | .ok df => df.rows
  | .error _ => []

/-- Standard `links` sub-object carried by every DISCOS relationship. -/
def relLinks : Val :=
  .obj [("self", .str "l"), ("related", .str "r")]

/-- A SpaceObjects raw record whose `relationships.launch.data` is `null`
and whose `relationships.initialOrbits.data` holds a single reference with
id `a`. -/
def objRecNullLaunch (a : Int) : Val :=
  .obj [("id", .int 1),
        ("type", .str "object"),
        ("attributes", .obj [("satno", .int 5), ("name", .str "SL-1 R/B"),
                             ("vimpelId", .null)]),
        ("relationships", .obj
          [("states", .obj [("links", relLinks)]),
           ("initialOrbits", .obj
             [("links", relLinks),
              ("data", .arr [.obj [("id", .int a), ("type", .str "initialOrbit")]])]),
           ("launch", .obj [("links", relLinks), ("data", .null)]),
           ("reentry", .obj
             [("links", relLinks),
              ("data", .obj [("id", .int 21), ("type", .str "reentry")])]),
           ("operators", .obj [("links", relLinks), ("data", .arr [])]),
           ("destinationOrbits", .obj [("links", relLinks), ("data", .arr [])])]),
        ("links", .obj [("self", .str "l")])]

/-- A SpaceObjects raw record with a present launch reference, a `null`
reentry reference, and a two-element `relationships.initialOrbits.data`
list with ids `b` and `c`. -/
def objRecTwoOrbits (b c : Int) : Val :=
  .obj [("id", .int 2),
        ("type", .str "object"),
        ("attributes", .obj [("satno", .int 6), ("name", .str "Sputnik 1"),
                             ("vimpelId", .int 4)]),
        ("relationships", .obj
          [("states", .obj [("links", relLinks)]),
           ("initialOrbits", .obj
             [("links", relLinks),
              ("data", .arr [.obj [("id", .int b), ("type", .str "initialOrbit")],
                             .obj [("id", .int c), ("type", .str "initialOrbit")]])]),
           ("launch", .obj
             [("links", relLinks),
              ("data", .obj [("id", .int 31), ("type", .str "launch")])]),
           ("reentry", .obj [("links", relLinks), ("data", .null)]),
           ("operators", .obj
             [("links", relLinks),
              ("data", .arr [.obj [("id", .int 41), ("type", .str "propulsor")]])]),
           ("destinationOrbits", .obj [("links", relLinks), ("data", .arr [])])]),
        ("links", .obj [("self", .str "l")])]

/-- A Fragmentations raw record whose `relationships.objects.data` holds
exactly one reference, with id `a`. -/
def fragRecOneObject (a : Int) : Val :=
  .obj [("id", .int 9),
        ("type", .str "fragmentation"),
        ("attributes", .obj [("eventType", .str "Explosion"),
                             ("longitude", .int 10),
                             ("comment", .str "c"),
                             ("epoch", .str "2019-01-01T12:00:00+00:00"),
                             ("latitude", .int 20),
                             ("altitude", .int 30)]),
        ("relationships", .obj
          [("objects", .obj
             [("links", relLinks),
              ("data", .arr [.obj [("id", .int a), ("type", .str "object")]])])]),
        ("links", .obj [("self", .str "l")])]

/-- The six database names handled by the `clean_discos` dispatch table. -/
def supportedSix : List String :=
  ["objects", "launches", "reentries", "launch-sites", "initial-orbits",
   "fragmentations"]

/-- A benign transport response used to instantiate witnesses. -/
def respW : Response := ⟨true, some 100, some 0, some [], some 1, none⟩

def envW : Transport := fun _ => respW

/-- Transport for the C1 counterexample: page 1 succeeds reporting two
pages; the page-2 response is not successful, carries a server error
payload, and its body has no `data` member. -/
def envC1 : Transport := fun k =>
  if k = 0 then ⟨true, some 100, some 0, some [], some 2, none⟩
  else ⟨false, some 5, some 0, none, none, some (.str "server error")⟩

/-- Transport whose very first response is not successful and carries a
server error payload. -/
def envC1W : Transport := fun _ =>
  ⟨false, some 100, some 0, some [], some 2, some (.str "server error")⟩

/-- Transport for the C2 counterexample: the first response reports
`X-Ratelimit-Remaining: 0` and `Retry-After: 10` while announcing two
pages; the page-2 response has plenty of quota left. -/
def envC2 : Transport := fun k =>
  if k = 0 then ⟨true, some 0, some 10, some [], some 2, none⟩
  else ⟨true, some 5, some 0, some [], none, none⟩

/-- Transport of a 2-page fetch whose page-2 response reports zero
remaining quota with `Retry-After: r`.  Every field the code never reads is
a parameter: in particular the first response's rate-limit headers `x0`
and `ra0`, the discarded `data` member `d1o` of the rate-limited page-2
response, and the success flags `b1`/`b2` of the page-2 response and of its
retry. -/
def rateLimitEnv (d0 : List Val) (d2 : List Val) (r : ℚ) (x0 : Option Int)
    (ra0 ra2 : Option ℚ) (b1 b2 : Bool) (d1o : Option (List Val))
    (x2 : Option Int) (t1 t2 : Option Nat) (e0 e1 e2 : Option Val) :
    Transport := fun k =>
  if k = 0 then ⟨true, x0, ra0, some d0, some 2, e0⟩
  else if k = 1 then ⟨b1, some 0, some r, d1o, t1, e1⟩
  else ⟨b2, x2, ra2, some d2, t2, e2⟩

/-- Transport of a successful 3-page fetch with record pages `r1`, `r2`,
`r3`.  Fields the code never reads on this path are parameters (first-page
rate-limit headers, later pages' success flags, `Retry-After` values,
page counts and error payloads). -/
def threePageEnv (r1 r2 r3 : List Val) (x0 : Option Int)
    (ra0 ra1 ra2 : Option ℚ) (b1 b2 : Bool) (t1 t2 : Option Nat)
    (e0 e1 e2 : Option Val) : Transport := fun k =>
  if k = 0 then ⟨true, x0, ra0, some r1, some 3, e0⟩
  else if k = 1 then ⟨b1, some 5, ra1, some r2, t1, e1⟩
  else ⟨b2, some 5, ra2, some r3, t2, e2⟩

/-- The DataFrame of a successful cleaning result (empty on failure). -/
def exGetD (e : Except SatErr DataFrame) : DataFrame :=
  match e with
  | .ok df => df
  | .error _ => ⟨[], []⟩

/-- Cache directory for the C3 counterexample: a fresh readable cache file
next to a file whose name embeds a date-shaped but calendar-invalid
stamp. -/
def fsC3 : FileSys :=
  ⟨[⟨"objects_2026-10-01.csv", some ⟨[], []⟩⟩,
    ⟨"objects_1111-99-99.csv", some ⟨[], []⟩⟩]⟩

/-- Cache directory holding exactly one fresh readable cache file. -/
def fsC3W : FileSys := ⟨[⟨"objects_2026-10-01.csv", some ⟨[], []⟩⟩]⟩

/-- Cache directory holding one recent cache file whose content cannot be
read. -/
def fsC9 : FileSys := ⟨[⟨"objects_2026-09-01.csv", none⟩]⟩

/-- Cache directory holding one readable cache file whose name has no
date-shaped substring. -/
def fsC9W : FileSys := ⟨[⟨"objects_recent.csv", some ⟨[], []⟩⟩]⟩

/-- Transport of a successful single-page fetch of two SpaceObjects
records. -/
def envC4W : Transport := fun _ =>
  ⟨true, some 100, some 0, some [objRecNullLaunch 11, objRecTwoOrbits 12 13],
   some 1, none⟩

/-- The cleaned dataset fetched through `envC4W`. -/
def dfC4W : DataFrame :=
  exGetD (clean_discos "objects"
    (json_normalize [objRecNullLaunch 11, objRecTwoOrbits 12 13]))

theorem stringData_append (s t : String) : (s ++ t).data = s.data ++ t.data := by
  cases s
  cases t
  rfl

theorem isPrefixOf_self_append (p t : List Char) : p.isPrefixOf (p ++ t) = true := by
  induction p with
  | nil => simp [List.isPrefixOf]
  | cons a p ih => simp [List.isPrefixOf, ih]

theorem scanAux_congr : ∀ (f1 : Nat) (l : List Char) (f2 : Nat),
    l.length ≤ f1 → l.length ≤ f2 → scanDatesAux f1 l = scanDatesAux f2 l := by
  intro f1
  induction f1 with
  | zero =>
    intro l f2 h1 _
    have hl : l = [] := List.eq_nil_of_length_eq_zero (Nat.le_zero.mp h1)
    subst hl
    cases f2 <;> rfl
  | succ f ih =>
    intro l f2 h1 h2
    cases l with
    | nil => cases f2 <;> rfl
    | cons c rest =>
      cases f2 with
      | zero => simp at h2
      | succ f2 =>
        have hr1 : rest.length ≤ f := by simp at h1; omega
        have hr2 : rest.length ≤ f2 := by simp at h2; omega
        cases hds : dateShape10 (c :: rest) with
        | none => simp only [scanDatesAux, hds]; exact ih rest f2 hr1 hr2
        | some v =>
          simp only [scanDatesAux, hds]
          have hd1 : (List.drop 9 rest).length ≤ f := by
            simp [List.length_drop]; omega
          have hd2 : (List.drop 9 rest).length ≤ f2 := by
            simp [List.length_drop]; omega
          rw [ih (List.drop 9 rest) f2 hd1 hd2]

theorem dateShape10_nondigit_head (a : Char) (l : List Char)
    (ha : a.isDigit = false) : dateShape10 (a :: l) = none := by
  rcases l with _ | ⟨b, _ | ⟨c, _ | ⟨d, _ | ⟨k1, _ | ⟨e, _ | ⟨f, _ | ⟨k2, _ | ⟨g, _ | ⟨h, t⟩⟩⟩⟩⟩⟩⟩⟩⟩ <;>
    simp [dateShape10, ha]

theorem scanDates_append_nondigit : ∀ (l1 l2 : List Char),
    (∀ c ∈ l1, c.isDigit = false) → scanDates (l1 ++ l2) = scanDates l2 := by
  intro l1
  induction l1 with
  | nil => intro l2 _; rfl
  | cons a l1 ih =>
    intro l2 hnd
    have ha : a.isDigit = false := hnd a (List.mem_cons_self a l1)
    have hrest : ∀ c ∈ l1, c.isDigit = false :=
      fun c hc => hnd c (List.mem_cons_of_mem a hc)
    calc scanDates ((a :: l1) ++ l2)
        = scanDatesAux ((l1 ++ l2).length + 1) (a :: (l1 ++ l2)) := by
          simp [scanDates]
      _ = scanDatesAux (l1 ++ l2).length (l1 ++ l2) := by
          simp only [scanDatesAux, dateShape10_nondigit_head a _ ha]
      _ = scanDates l2 := ih l2 hrest

theorem digitChar_isDigit (n : Nat) : (digitChar n).isDigit = true := by
  have h : n % 10 < 10 := Nat.mod_lt _ (by norm_num)
  unfold digitChar
  generalize hgen : n % 10 = r at h ⊢
  interval_cases r <;> rfl

theorem charVal_digitChar (n : Nat) : charVal (digitChar n) = n % 10 := by
  have h : n % 10 < 10 := Nat.mod_lt _ (by norm_num)
  unfold digitChar charVal
  generalize hgen : n % 10 = r at h ⊢
  interval_cases r <;> rfl

theorem dateShape10_dateStamp (y m d : Nat) (t : List Char)
    (hy : y ≤ 9999) (hm : m ≤ 99) (hd : d ≤ 99) :
    dateShape10 (digitChar (y / 1000) :: digitChar (y / 100) :: digitChar (y / 10) ::
      digitChar y :: '-' :: digitChar (m / 10) :: digitChar m :: '-' ::
      digitChar (d / 10) :: digitChar d :: t) = some (y, m, d) := by
  simp only [dateShape10, digitChar_isDigit, charVal_digitChar, Bool.and_true,
    Bool.true_and, beq_self_eq_true, if_true, Option.some.injEq, Prod.mk.injEq]
  omega

theorem scanDates_dateStamp (y m d : Nat) (t : List Char)
    (hy : y ≤ 9999) (hm : m ≤ 99) (hd : d ≤ 99) :
    scanDates (digitChar (y / 1000) :: digitChar (y / 100) :: digitChar (y / 10) ::
      digitChar y :: '-' :: digitChar (m / 10) :: digitChar m :: '-' ::
      digitChar (d / 10) :: digitChar d :: t) = (y, m, d) :: scanDates t := by
  have hds := dateShape10_dateStamp y m d t hy hm hd
  show scanDatesAux _ _ = _
  rw [show (digitChar (y / 1000) :: digitChar (y / 100) :: digitChar (y / 10) ::
      digitChar y :: '-' :: digitChar (m / 10) :: digitChar m :: '-' ::
      digitChar (d / 10) :: digitChar d :: t).length = (9 + t.length) + 1 from by
    simp
    omega]
  simp only [scanDatesAux, hds]
  show (y, m, d) :: scanDatesAux (9 + t.length) t = (y, m, d) :: scanDatesAux t.length t
  rw [scanAux_congr (9 + t.length) t t.length (by omega) (Nat.le_refl _)]

theorem findLastDate_cacheName (database : String) (now : Date)
    (hdb : ∀ c ∈ database.data, c.isDigit = false)
    (hy : now.y ≤ 9999) (hm : now.m ≤ 99) (hd : now.d ≤ 99) :
    findLastDate (cacheName database now) = some (now.y, now.m, now.d) := by
  have hdata : (cacheName database now).data =
      (database.data ++ ['_']) ++
      (digitChar (now.y / 1000) :: digitChar (now.y / 100) :: digitChar (now.y / 10) ::
       digitChar now.y :: '-' :: digitChar (now.m / 10) :: digitChar now.m :: '-' ::
       digitChar (now.d / 10) :: digitChar now.d :: ".csv".data) := by
    simp [cacheName, dateStr, dateStrOf, stringData_append]
  have hnd : ∀ c ∈ database.data ++ ['_'], c.isDigit = false := by
    intro c hc
    rcases List.mem_append.mp hc with h | h
    · exact hdb c h
    · rcases List.mem_singleton.mp h with rfl; rfl
  unfold findLastDate
  rw [hdata, scanDates_append_nondigit _ _ hnd,
    scanDates_dateStamp now.y now.m now.d _ hy hm hd]
  rfl

theorem supported_nondigit (database : String) (h : database ∈ supportedSix) :
    ∀ c ∈ database.data, c.isDigit = false := by
  simp only [supportedSix, List.mem_cons, List.not_mem_nil, or_false] at h
  rcases h with rfl | rfl | rfl | rfl | rfl | rfl <;> decide

theorem cacheName_mem_candidates (fs : FileSys) (database : String) (now : Date)
    (f : CacheFile) (hf : f ∈ fs.files) (hname : f.name = cacheName database now) :
    f ∈ candidateFiles fs database := by
  apply List.mem_filter.mpr
  refine ⟨hf, ?_⟩
  rw [hname]
  have hdata : (cacheName database now).data =
      (database ++ "_").data ++ (dateStr now ++ ".csv").data := by
    simp [cacheName, stringData_append]
  rw [hdata]
  exact isPrefixOf_self_append _ _

theorem writeFS_of_not_exists (fs : FileSys) (n : String) (df : DataFrame)
    (h : ∀ f ∈ fs.files, f.name ≠ n) :
    writeFS fs n df = ⟨fs.files ++ [⟨n, some df⟩]⟩ := by
  have hno : ¬(fs.files.any (fun f => f.name == n) = true) := by
    intro hc
    obtain ⟨f, hf, hbeq⟩ := List.any_eq_true.mp hc
    exact h f hf (by simpa using hbeq)
  unfold writeFS
  rw [if_neg hno]

theorem ageDays_self (now : Date) : ageDays now now.y now.m now.d = 0 := by
  cases now
  simp [ageDays]

theorem clean_discos_notmem (database : String) (df : DataFrame)
    (h : database ∉ supportedSix) :
    clean_discos database df = .error (.keyError database) := by
  simp only [supportedSix, List.mem_cons, List.not_mem_nil, or_false, not_or] at h
  obtain ⟨h1, h2, h3, h4, h5, h6⟩ := h
  simp [clean_discos, h1, h2, h3, h4, h5, h6]

theorem scanCandidates_allnone (now : Date) :
    ∀ (l : List CacheFile) (m : Int) (r : Option String),
    (∀ f ∈ l, findLastDate f.name = none) →
    scanCandidates now l m r = .ok (m, r) := by
  intro l
  induction l with
  | nil => intro m r _; rfl
  | cons f rest ih =>
    intro m r h
    have hf := h f (List.mem_cons_self f rest)
    simp only [scanCandidates, hf]
    exact ih m r (fun g hg => h g (List.mem_cons_of_mem f hg))

theorem scanCandidates_spec (now : Date) :
    ∀ (l : List CacheFile) (m : Int) (r : Option String),
    (∀ f ∈ l, findLastDate f.name = none ∨
      ∃ y mo d, findLastDate f.name = some (y, mo, d) ∧ strptimeValid y mo d = true) →
    ∃ m2 r2, scanCandidates now l m r = .ok (m2, r2) ∧ m2 ≤ m ∧
      ((m2 = m ∧ r2 = r) ∨
        (m2 < m ∧ ∃ f ∈ l, ∃ y mo d, findLastDate f.name = some (y, mo, d) ∧
          strptimeValid y mo d = true ∧ m2 = ageDays now y mo d ∧
          r2 = some f.name)) ∧
      (∀ f ∈ l, ∀ y mo d, findLastDate f.name = some (y, mo, d) →
        strptimeValid y mo d = true → m2 ≤ ageDays now y mo d) := by
  intro l
  induction l with
  | nil =>
    intro m r _
    exact ⟨m, r, rfl, le_refl _, Or.inl ⟨rfl, rfl⟩, by simp⟩
  | cons f rest ih =>
    intro m r hwf
    have hrest : ∀ g ∈ rest, findLastDate g.name = none ∨
        ∃ y mo d, findLastDate g.name = some (y, mo, d) ∧ strptimeValid y mo d = true :=
      fun g hg => hwf g (List.mem_cons_of_mem f hg)
    rcases hwf f (List.mem_cons_self f rest) with hnone | ⟨y, mo, d, hsome, hval⟩
    · obtain ⟨m2, r2, heq, hle, hdisj, hmin⟩ := ih m r hrest
      refine ⟨m2, r2, ?_, hle, ?_, ?_⟩
      · simp only [scanCandidates, hnone]; exact heq
      · rcases hdisj with h | ⟨hlt, g, hg, y, mo, d, rest_h⟩
        · exact Or.inl h
        · exact Or.inr ⟨hlt, g, List.mem_cons_of_mem f hg, y, mo, d, rest_h⟩
      · intro g hg y mo d hs hv
        rcases List.mem_cons.mp hg with rfl | hg2
        · rw [hnone] at hs; exact absurd hs (by simp)
        · exact hmin g hg2 y mo d hs hv
    · by_cases hlt : ageDays now y mo d < m
      · obtain ⟨m2, r2, heq, hle, hdisj, hmin⟩ :=
          ih (ageDays now y mo d) (some f.name) hrest
        refine ⟨m2, r2, ?_, by omega, ?_, ?_⟩
        · simp only [scanCandidates, hsome, hval, if_true, if_pos hlt]
          exact heq
        · rcases hdisj with ⟨hm2, hr2⟩ | ⟨hlt2, g, hg, y2, mo2, d2, hs2, hv2, hm2, hr2⟩
          · exact Or.inr ⟨by omega, f, List.mem_cons_self f rest, y, mo, d,
              hsome, hval, hm2, hr2⟩
          · exact Or.inr ⟨by omega, g, List.mem_cons_of_mem f hg, y2, mo2, d2,
              hs2, hv2, hm2, hr2⟩
        · intro g hg y2 mo2 d2 hs hv
          rcases List.mem_cons.mp hg with rfl | hg2
          · rw [hsome] at hs
            have : y = y2 ∧ mo = mo2 ∧ d = d2 := by
              simpa using hs
            obtain ⟨rfl, rfl, rfl⟩ := this
            exact hle
          · exact hmin g hg2 y2 mo2 d2 hs hv
      · obtain ⟨m2, r2, heq, hle, hdisj, hmin⟩ := ih m r hrest
        refine ⟨m2, r2, ?_, hle, ?_, ?_⟩
        · simp only [scanCandidates, hsome, hval, if_true, if_neg hlt]
          exact heq
        · rcases hdisj with h | ⟨hlt2, g, hg, y2, mo2, d2, rest_h⟩
          · exact Or.inl h
          · exact Or.inr ⟨hlt2, g, List.mem_cons_of_mem f hg, y2, mo2, d2, rest_h⟩
        · intro g hg y2 mo2 d2 hs hv
          rcases List.mem_cons.mp hg with rfl | hg2
          · rw [hsome] at hs
            have : y = y2 ∧ mo = mo2 ∧ d = d2 := by
              simpa using hs
            obtain ⟨rfl, rfl, rfl⟩ := this
            omega
          · exact hmin g hg2 y2 mo2 d2 hs hv

theorem fetchLoop_log_extends (env : Transport) :
    ∀ (pl page k : Nat) (t : ℚ) (acc : List Val) (log : ReqLog),
    ∃ tail, (fetchLoop env pl page k t acc log).2 = log ++ tail := by
  intro pl
  induction pl with
  | zero => intro page k t acc log; exact ⟨[], by simp [fetchLoop]⟩
  | succ n ih =>
    intro page k t acc log
    cases hx : (env k).xRatelimitRemaining with
    | none => exact ⟨[(page, t)], by simp [fetchLoop, hx]⟩
    | some lim =>
      by_cases hb : (lim == 0) = true
      · cases hra : (env k).retryAfter with
        | none => exact ⟨[(page, t)], by simp [fetchLoop, hx, hra, hb]⟩
        | some ra =>
          cases hd2 : (env (k + 1)).dataField with
          | none =>
            exact ⟨[(page, t), (page, t + (ra + 5))], by
              simp [fetchLoop, hx, hra, hd2, hb]⟩
          | some dat =>
            obtain ⟨tail, htail⟩ := ih (page + 1) (k + 2) (t + (ra + 5))
              (acc ++ dat) (log ++ [(page, t)] ++ [(page, t + (ra + 5))])
            refine ⟨[(page, t)] ++ [(page, t + (ra + 5))] ++ tail, ?_⟩
            simp only [fetchLoop, hx, hra, hd2, hb, if_true]
            rw [htail]
            simp
      · cases hd : (env k).dataField with
        | none => exact ⟨[(page, t)], by simp [fetchLoop, hx, hd, hb]⟩
        | some dat =>
          obtain ⟨tail, htail⟩ := ih (page + 1) (k + 1) t (acc ++ dat)
            (log ++ [(page, t)])
          refine ⟨[(page, t)] ++ tail, ?_⟩
          simp only [fetchLoop, hx, hd, hb, if_false, Bool.false_eq_true]
          rw [htail]
          simp

theorem retrieve_raw_ok_log (database : String) (env : Transport)
    (recs : List Val) (rlog : ReqLog)
    (h : retrieve_discos_raw database env = (.ok recs, rlog)) :
    ∃ tail, rlog = (1, (0 : ℚ)) :: tail := by
  cases hp : discos_params database with
  | none => simp [retrieve_discos_raw, hp] at h
  | some p =>
    by_cases ho : (env 0).ok = true
    · cases hd : (env 0).dataField with
      | none => simp [retrieve_discos_raw, hp, ho, hd] at h
      | some dat =>
        cases ht : (env 0).totalPages with
        | none => simp [retrieve_discos_raw, hp, ho, hd, ht] at h
        | some lastPage =>
          simp only [retrieve_discos_raw, hp, ho, hd, ht, if_true] at h
          obtain ⟨tail, htail⟩ := fetchLoop_log_extends env (lastPage - 1) 2 1 0
            dat [(1, (0 : ℚ))]
          rw [h] at htail
          exact ⟨tail, htail⟩
    · have ho2 : (env 0).ok = false := by simpa using ho
      cases hep : (env 0).errorPayload with
      | none => simp [retrieve_discos_raw, hp, ho2, hep] at h
      | some pl => simp [retrieve_discos_raw, hp, ho2, hep] at h

theorem retrieve_data_ok_parts (database : String) (env : Transport)
    (df : DataFrame) (log : ReqLog)
    (hok : retrieve_discos_data database env = (.ok df, log)) :
    database ∈ supportedSix ∧ ∃ tail, log = (1, (0 : ℚ)) :: tail := by
  rcases hr : retrieve_discos_raw database env with ⟨res, rlog⟩
  cases res with
  | error e => simp [retrieve_discos_data, hr] at hok
  | ok recs =>
    cases hc : clean_discos database (json_normalize recs) with
    | error e => simp [retrieve_discos_data, hr, hc] at hok
    | ok df2 =>
      simp only [retrieve_discos_data, hr, hc, Prod.mk.injEq] at hok
      obtain ⟨-, rfl⟩ := hok
      constructor
      · by_contra hmem
        rw [clean_discos_notmem database _ hmem] at hc
        exact Except.noConfusion hc
      · exact retrieve_raw_ok_log database env recs rlog hr

/-- C1 counterexample: with a non-success response at page 2 of a 2-page
fetch, the code does not raise `MyError` (the spec's ApiError) — the page
loop never checks `response.ok`, so the fetch aborts with a `KeyError` on
the missing `data` member of the error body instead, contradicting the
claim that any non-success response raises an ApiError carrying the server
error payload. -/
theorem c1_counterexample :
    retrieve_discos_raw "objects" envC1 =
      (.error (.keyError "data"), [(1, 0), (2, 0)]) ∧
    ∀ payload : Val, (SatErr.keyError "data") ≠ (SatErr.myError payload) :=
  ⟨rfl, fun _ h => SatErr.noConfusion h⟩

/-- C1 amended: a non-success response at the FIRST page raises
`MyError` carrying the server error payload (`response.json()['error']`),
with no partial result; at subsequent pages and on the rate-limit retry the
success flag is never checked, so such failures abort with other
exceptions; in every failing case `get_data` propagates the exception and
writes no cache file. -/
theorem c1_amended (database : String) (env : Transport) (fs : FileSys)
    (now : Date) (p : DiscosParams) (payload : Val)
    (hp : discos_params database = some p)
    (hok : (env 0).ok = false)
    (hpay : (env 0).errorPayload = some payload)
    (hfs : candidateFiles fs database = []) :
    get_data database fs now env = (.error (.myError payload), fs, [(1, 0)]) ∧
    (∀ env2 : Transport, ∀ e log,
      retrieve_discos_data database env2 = (.error e, log) →
      get_data database fs now env2 = (.error e, fs, log)) := by
  constructor
  · have hraw : retrieve_discos_raw database env =
        (.error (.myError payload), [(1, 0)]) := by
      simp [retrieve_discos_raw, hp, hok, hpay]
    simp [get_data, hfs, retrieve_discos_data, hraw]
  · intro env2 e log h
    simp [get_data, hfs, h]

/-- Closed instance of `c1_amended`. -/
theorem c1_amended_witness :
    get_data "objects" ⟨[]⟩ ⟨2026, 10, 12⟩ envC1W =
      (.error (.myError (.str "server error")), ⟨[]⟩, [(1, 0)]) :=
  (c1_amended "objects" envC1W ⟨[]⟩ ⟨2026, 10, 12⟩
    ⟨some "launch,reentry,initialOrbits,destinationOrbits,operators",
     some "satno", 1, 100⟩
    (.str "server error") rfl rfl rfl rfl).1

/-- C2 counterexample: although the first response reports
`X-Ratelimit-Remaining: 0` and `Retry-After: 10`, the page-2 request is
issued at simulated clock time 0 — no suspension happens before it,
because the code never inspects the previous response's rate-limit header;
this contradicts the claim that at least 15 seconds elapse before the
page-2 request. -/
theorem c2_counterexample :
    retrieve_discos_raw "objects" envC2 = (.ok [], [(1, 0), (2, 0)]) ∧
    ¬ ((15 : ℚ) ≤ 0) :=
  ⟨rfl, by norm_num⟩

/-- C2 amended: the fetcher never inspects the first response's rate-limit
headers; for each subsequent page it first issues the request, then reads
THAT response's `X-Ratelimit-Remaining`; on zero it sleeps
`Retry-After + 5` seconds and re-issues the same page request exactly once,
taking the records from the retry.  So the page-2 request is issued with no
delay at clock 0, and its retry at clock `r + 5`. -/
theorem c2_amended (database : String) (p : DiscosParams) (d0 d2 : List Val)
    (r : ℚ) (x0 : Option Int) (ra0 ra2 : Option ℚ) (b1 b2 : Bool)
    (d1o : Option (List Val)) (x2 : Option Int) (t1 t2 : Option Nat)
    (e0 e1 e2 : Option Val)
    (hp : discos_params database = some p) :
    retrieve_discos_raw database
        (rateLimitEnv d0 d2 r x0 ra0 ra2 b1 b2 d1o x2 t1 t2 e0 e1 e2) =
      (.ok (d0 ++ d2), [(1, 0), (2, 0), (2, r + 5)]) := by
  have h : retrieve_discos_raw database
      (rateLimitEnv d0 d2 r x0 ra0 ra2 b1 b2 d1o x2 t1 t2 e0 e1 e2) =
      (.ok (d0 ++ d2), [(1, 0), (2, 0), (2, 0 + (r + 5))]) := by
    simp only [retrieve_discos_raw, hp]
    rfl
  rw [h]
  norm_num

/-- Closed instance of `c2_amended` at `Retry-After: 10`: the retry of the
page-2 request is issued 15 seconds after its first attempt. -/
theorem c2_amended_witness :
    retrieve_discos_raw "objects"
        (rateLimitEnv [] [.int 1] 10 none none none true true none none
          none none none none none) =
      (.ok [.int 1], [(1, 0), (2, 0), (2, 15)]) := by
  have h := c2_amended "objects"
    ⟨some "launch,reentry,initialOrbits,destinationOrbits,operators",
     some "satno", 1, 100⟩
    [] [.int 1] 10 none none none true true none none none none none none
    none rfl
  norm_num at h
  exact h

/-- C5: a successful fetch whose first response reports `totalPages = 3`
with pages of 100, 100 and 50 records yields exactly 250 records, the
concatenation of the three pages in page order with in-page order
preserved, the three page requests being issued in increasing page
order. -/
theorem c5_three_pages (database : String) (p : DiscosParams)
    (r1 r2 r3 : List Val) (x0 : Option Int) (ra0 ra1 ra2 : Option ℚ)
    (b1 b2 : Bool) (t1 t2 : Option Nat) (e0 e1 e2 : Option Val)
    (hp : discos_params database = some p)
    (hn1 : r1.length = 100) (hn2 : r2.length = 100) (hn3 : r3.length = 50) :
    retrieve_discos_raw database
        (threePageEnv r1 r2 r3 x0 ra0 ra1 ra2 b1 b2 t1 t2 e0 e1 e2) =
      (.ok (r1 ++ r2 ++ r3), [(1, 0), (2, 0), (3, 0)]) ∧
    (r1 ++ r2 ++ r3).length = 250 := by
  constructor
  · simp only [retrieve_discos_raw, hp]
    rfl
  · simp [hn1, hn2, hn3]

/-- Closed instance of `c5_three_pages`. -/
theorem c5_three_pages_witness :
    retrieve_discos_raw "objects"
        (threePageEnv (List.replicate 100 (.int 1)) (List.replicate 100 (.int 2))
          (List.replicate 50 (.int 3)) none none none none true true none none
          none none none) =
      (.ok (List.replicate 100 (.int 1) ++ List.replicate 100 (.int 2) ++
            List.replicate 50 (.int 3)), [(1, 0), (2, 0), (3, 0)]) ∧
    (List.replicate 100 (Val.int 1) ++ List.replicate 100 (Val.int 2) ++
      List.replicate 50 (Val.int 3)).length = 250 :=
  c5_three_pages "objects"
    ⟨some "launch,reentry,initialOrbits,destinationOrbits,operators",
     some "satno", 1, 100⟩
    (List.replicate 100 (.int 1)) (List.replicate 100 (.int 2))
    (List.replicate 50 (.int 3)) none none none none true true none none
    none none none rfl (by simp) (by simp) (by simp)

/-- C6: SpaceObjects normalization coerces relationship columns by
cardinality — a record whose `relationships.launch.data` is `null` yields a
null (`NaN`) `LaunchId`; a single-element `initialOrbits.data` list yields
a scalar `InitOrbitId` id; a two-element list yields `InitOrbitId` as the
list of the two ids. -/
theorem c6_objects_reference_coercion :
    exOk (clean_discos "objects"
      (json_normalize [objRecNullLaunch 11, objRecTwoOrbits 12 13])) = true ∧
    rowGet ((rowsOf (clean_discos "objects"
      (json_normalize [objRecNullLaunch 11, objRecTwoOrbits 12 13]))).getD 0 [])
      "LaunchId" = .nan ∧
    rowGet ((rowsOf (clean_discos "objects"
      (json_normalize [objRecNullLaunch 11, objRecTwoOrbits 12 13]))).getD 0 [])
      "InitOrbitId" = .str "11" ∧
    rowGet ((rowsOf (clean_discos "objects"
      (json_normalize [objRecNullLaunch 11, objRecTwoOrbits 12 13]))).getD 1 [])
      "InitOrbitId" = .arr [.str "12", .str "13"] :=
  ⟨rfl, rfl, rfl, rfl⟩

set_option maxHeartbeats 2000000 in
/-- C7: Fragmentations normalization keeps the list form of the
object-reference column for every cardinality — a raw record whose
`relationships.objects.data` holds exactly one reference yields `DiscosIds`
as a one-element list of integer ids, never a scalar. -/
theorem c7_fragmentations_list_coercion (a : Int) :
    exOk (clean_discos "fragmentations"
      (json_normalize [fragRecOneObject a])) = true ∧
    rowGet ((rowsOf (clean_discos "fragmentations"
      (json_normalize [fragRecOneObject a]))).getD 0 [])
      "DiscosIds" = .arr [.int a] :=
  ⟨rfl, rfl⟩

/-- C8 counterexample: normalizing an empty record sequence does not
succeed with a zero-row full-schema dataset — `pd.json_normalize([])` has
no columns at all, so the `drop` step raises a `KeyError` listing every
requested column. -/
theorem c8_counterexample :
    clean_discos "objects" (json_normalize []) =
      .error (.keyErrorCols objectsDropCols) :=
  rfl

/-- C8 amended: for every supported dataset name, normalizing an empty raw
record sequence raises (a missing-column `KeyError` from the drop step)
instead of yielding a zero-row dataset with the full column set. -/
theorem c8_empty_raises (database : String) (h : database ∈ supportedSix) :
    ∃ e, clean_discos database (json_normalize []) = .error e := by
  simp only [supportedSix, List.mem_cons, List.not_mem_nil, or_false] at h
  rcases h with rfl | rfl | rfl | rfl | rfl | rfl
  all_goals exact ⟨_, rfl⟩

/-- Closed instance of `c8_empty_raises`. -/
theorem c8_empty_raises_witness :
    ∃ e, clean_discos "launches" (json_normalize []) = .error e :=
  c8_empty_raises "launches" (by decide)

/-- C10: for a database name outside the six supported ones the pipeline
always errors before returning a dataset; names with no `discos_params`
branch fail with `UnboundLocalError` before any request is issued, and
names whose fetch succeeds fail at the `clean_discos` dispatch-table lookup
with a `KeyError` on the name. -/
theorem c10_unsupported_names (database : String) (env : Transport)
    (h : database ∉ supportedSix) :
    (∃ e, (retrieve_discos_data database env).1 = .error e) ∧
    (discos_params database = none →
      retrieve_discos_data database env = (.error .unboundLocal, [])) ∧
    (∀ recs log, retrieve_discos_raw database env = (.ok recs, log) →
      (retrieve_discos_data database env).1 = .error (.keyError database)) := by
  have hclean : ∀ df, clean_discos database df = .error (.keyError database) :=
    fun df => clean_discos_notmem database df h
  refine ⟨?_, ?_, ?_⟩
  · rcases hr : retrieve_discos_raw database env with ⟨res, log⟩
    cases res with
    | error e => exact ⟨e, by simp [retrieve_discos_data, hr]⟩
    | ok recs => exact ⟨.keyError database, by simp [retrieve_discos_data, hr, hclean]⟩
  · intro hp
    simp [retrieve_discos_data, retrieve_discos_raw, hp]
  · intro recs log hraw
    simp [retrieve_discos_data, hraw, hclean]

/-- Closed instance of `c10_unsupported_names` at the name `entities`
(which has a parameter branch but no normalization rule set). -/
theorem c10_unsupported_names_witness :
    ∃ e, (retrieve_discos_data "entities" envW).1 = .error e :=
  (c10_unsupported_names "entities" envW (by decide)).1

/-- C3 counterexample: the dataset `objects` has a cache file
(`objects_2026-10-01.csv`) that is readable and 11 days old — strictly
fresher than 365 days — yet `get_data` does not return its content: a
neighbouring candidate whose name embeds the date-shaped but
calendar-invalid stamp `1111-99-99` makes `strptime` raise `ValueError`,
aborting the whole call. -/
theorem c3_counterexample :
    findLastDate "objects_2026-10-01.csv" = some (2026, 10, 1) ∧
    strptimeValid 2026 10 1 = true ∧
    ageDays ⟨2026, 10, 12⟩ 2026 10 1 < 365 ∧
    readFS fsC3 "objects_2026-10-01.csv" = .ok ⟨[], []⟩ ∧
    get_data "objects" fsC3 ⟨2026, 10, 12⟩ envW =
      (.error (.valueError "1111-99-99"), fsC3, []) ∧
    (Except.error (SatErr.valueError "1111-99-99") : Except SatErr DataFrame) ≠
      .ok (⟨[], []⟩ : DataFrame) :=
  ⟨rfl, rfl, by decide, rfl, rfl, fun h => Except.noConfusion h⟩

/-- C3 amended: provided every candidate file either has no date-shaped
substring in its name or embeds a valid calendar date, if some candidate's
stamp gives an age strictly below 365 days then `get_data` issues zero
network requests, leaves the cache unmodified, runs no normalization, and
returns the result of reading the minimal-age such candidate (its content
when readable). -/
theorem c3_fresh_cache_hit (database : String) (fs : FileSys) (now : Date)
    (env : Transport)
    (hwf : ∀ f ∈ candidateFiles fs database, findLastDate f.name = none ∨
      ∃ y mo d, findLastDate f.name = some (y, mo, d) ∧ strptimeValid y mo d = true)
    (hfresh : ∃ f ∈ candidateFiles fs database, ∃ y mo d,
      findLastDate f.name = some (y, mo, d) ∧ strptimeValid y mo d = true ∧
      ageDays now y mo d < 365) :
    ∃ g ∈ candidateFiles fs database, ∃ y mo d,
      findLastDate g.name = some (y, mo, d) ∧ strptimeValid y mo d = true ∧
      ageDays now y mo d < 365 ∧
      (∀ f ∈ candidateFiles fs database, ∀ y2 mo2 d2,
        findLastDate f.name = some (y2, mo2, d2) →
        strptimeValid y2 mo2 d2 = true →
        ageDays now y mo d ≤ ageDays now y2 mo2 d2) ∧
      get_data database fs now env = (readFS fs g.name, fs, []) := by
  obtain ⟨f0, hf0, y0, mo0, d0, hs0, hv0, ha0⟩ := hfresh
  obtain ⟨m2, r2, heq, hle, hdisj, hmin⟩ :=
    scanCandidates_spec now (candidateFiles fs database) 365 none hwf
  have hm2 : m2 < 365 := lt_of_le_of_lt (hmin f0 hf0 y0 mo0 d0 hs0 hv0) ha0
  rcases hdisj with ⟨hm2eq, -⟩ | ⟨-, g, hg, y, mo, d, hsome, hval, hm2eq, hr2⟩
  · omega
  · refine ⟨g, hg, y, mo, d, hsome, hval, by omega, ?_, ?_⟩
    · intro f hf y2 mo2 d2 hs hv
      have := hmin f hf y2 mo2 d2 hs hv
      omega
    · have hie : (candidateFiles fs database).isEmpty = false := by
        cases hl : candidateFiles fs database with
        | nil => rw [hl] at hf0; exact absurd hf0 (List.not_mem_nil f0)
        | cons a as => rfl
      simp only [get_data, hie, Bool.false_eq_true, if_false, heq]
      rw [if_pos hm2]
      simp only [hr2]

/-- Closed instance of `c3_fresh_cache_hit`. -/
theorem c3_fresh_cache_hit_witness :
    ∃ g ∈ candidateFiles fsC3W "objects", ∃ y mo d,
      findLastDate g.name = some (y, mo, d) ∧ strptimeValid y mo d = true ∧
      ageDays ⟨2026, 10, 12⟩ y mo d < 365 ∧
      (∀ f ∈ candidateFiles fsC3W "objects", ∀ y2 mo2 d2,
        findLastDate f.name = some (y2, mo2, d2) →
        strptimeValid y2 mo2 d2 = true →
        ageDays ⟨2026, 10, 12⟩ y mo d ≤ ageDays ⟨2026, 10, 12⟩ y2 mo2 d2) ∧
      get_data "objects" fsC3W ⟨2026, 10, 12⟩ envW =
        (readFS fsC3W g.name, fsC3W, []) := by
  have hcand : candidateFiles fsC3W "objects" =
      [⟨"objects_2026-10-01.csv", some ⟨[], []⟩⟩] := rfl
  refine c3_fresh_cache_hit "objects" fsC3W ⟨2026, 10, 12⟩ envW ?_ ?_
  · intro f hf
    rw [hcand] at hf
    rcases List.mem_singleton.mp hf with rfl
    exact Or.inr ⟨2026, 10, 1, rfl, rfl⟩
  · refine ⟨⟨"objects_2026-10-01.csv", some ⟨[], []⟩⟩, ?_, 2026, 10, 1, rfl, rfl,
      by decide⟩
    rw [hcand]
    exact List.mem_singleton.mpr rfl

/-- C4: for a dataset whose cache directory holds no candidate file, or
only candidates whose (valid) date stamps give ages of at least 365 days,
`get_data` performs the fetch (issuing at least one request) and, on
success, appends exactly one new cache file named with the current date,
leaving every prior file untouched (the new name can collide with no
existing candidate, since an existing file so named would be 0 days
old). -/
theorem c4_stale_cache_fetch_write (database : String) (fs : FileSys)
    (now : Date) (env : Transport) (df : DataFrame) (log : ReqLog)
    (hy : now.y ≤ 9999) (hm : now.m ≤ 99) (hd : now.d ≤ 99)
    (hstale : candidateFiles fs database = [] ∨
      ∀ f ∈ candidateFiles fs database, ∃ y mo d,
        findLastDate f.name = some (y, mo, d) ∧ strptimeValid y mo d = true ∧
        365 ≤ ageDays now y mo d)
    (hok : retrieve_discos_data database env = (.ok df, log)) :
    get_data database fs now env =
      (.ok df, ⟨fs.files ++ [⟨cacheName database now, some df⟩]⟩, log) ∧
    log ≠ [] := by
  obtain ⟨hmem, tail, hlog⟩ := retrieve_data_ok_parts database env df log hok
  have hdigit : ∀ c ∈ database.data, c.isDigit = false :=
    supported_nondigit database hmem
  have hfl : findLastDate (cacheName database now) = some (now.y, now.m, now.d) :=
    findLastDate_cacheName database now hdigit hy hm hd
  have hnotin : ∀ f ∈ fs.files, f.name ≠ cacheName database now := by
    intro f hf heqn
    have hcand : f ∈ candidateFiles fs database :=
      cacheName_mem_candidates fs database now f hf heqn
    rcases hstale with hnil | hall
    · rw [hnil] at hcand; exact absurd hcand (List.not_mem_nil f)
    · obtain ⟨y, mo, d, hsome, hval, hage⟩ := hall f hcand
      rw [heqn, hfl] at hsome
      have hyy : now.y = y ∧ now.m = mo ∧ now.d = d := by simpa using hsome
      obtain ⟨rfl, rfl, rfl⟩ := hyy
      have h0 : ageDays now now.y now.m now.d = 0 := ageDays_self now
      omega
  have hwrite : writeFS fs (cacheName database now) df =
      ⟨fs.files ++ [⟨cacheName database now, some df⟩]⟩ :=
    writeFS_of_not_exists fs _ df hnotin
  refine ⟨?_, by rw [hlog]; exact fun hcon => List.noConfusion hcon⟩
  by_cases hc : candidateFiles fs database = []
  · have hie : (candidateFiles fs database).isEmpty = true := by rw [hc]; rfl
    simp only [get_data, hie, if_true, hok, hwrite]
  · have hall : ∀ f ∈ candidateFiles fs database, ∃ y mo d,
        findLastDate f.name = some (y, mo, d) ∧ strptimeValid y mo d = true ∧
        365 ≤ ageDays now y mo d := by
      rcases hstale with hnil | hall
      · exact absurd hnil hc
      · exact hall
    have hwf : ∀ f ∈ candidateFiles fs database, findLastDate f.name = none ∨
        ∃ y mo d, findLastDate f.name = some (y, mo, d) ∧
          strptimeValid y mo d = true := by
      intro f hf
      obtain ⟨y, mo, d, hsome, hval, -⟩ := hall f hf
      exact Or.inr ⟨y, mo, d, hsome, hval⟩
    obtain ⟨m2, r2, heq, hle, hdisj, hmin⟩ :=
      scanCandidates_spec now (candidateFiles fs database) 365 none hwf
    have hm2 : m2 = 365 := by
      rcases hdisj with ⟨h1, -⟩ | ⟨hlt, g, hg, y, mo, d, hsome, hval, hm2eq, -⟩
      · exact h1
      · obtain ⟨y2, mo2, d2, hs2, hv2, hage2⟩ := hall g hg
        rw [hsome] at hs2
        have hyy : y = y2 ∧ mo = mo2 ∧ d = d2 := by simpa using hs2
        obtain ⟨rfl, rfl, rfl⟩ := hyy
        omega
    have hie : (candidateFiles fs database).isEmpty = false := by
      cases hl : candidateFiles fs database with
      | nil => exact absurd hl hc
      | cons a as => rfl
    simp only [get_data, hie, Bool.false_eq_true, if_false, heq, hm2]
    rw [if_neg (lt_irrefl (365 : Int))]
    simp only [hok, hwrite]

/-- Closed instance of `c4_stale_cache_fetch_write` on an empty cache
directory. -/
theorem c4_stale_cache_fetch_write_witness :
    get_data "objects" ⟨[]⟩ ⟨2026, 10, 12⟩ envC4W =
      (.ok dfC4W,
       ⟨[] ++ [⟨cacheName "objects" ⟨2026, 10, 12⟩, some dfC4W⟩]⟩, [(1, 0)]) ∧
    ([(1, (0 : ℚ))] : ReqLog) ≠ [] :=
  c4_stale_cache_fetch_write "objects" ⟨[]⟩ ⟨2026, 10, 12⟩ envC4W dfC4W
    [(1, 0)] (by decide) (by decide) (by decide) (Or.inl rfl) rfl

/-- C9 counterexample: the only cache file for `objects` is recent
(41 days) but unreadable; instead of being excluded from the freshness
candidates with the call falling through to a fresh fetch, the read failure
aborts `get_data` with the read error and zero requests are issued. -/
theorem c9_counterexample :
    findLastDate "objects_2026-09-01.csv" = some (2026, 9, 1) ∧
    strptimeValid 2026 9 1 = true ∧
    ageDays ⟨2026, 10, 12⟩ 2026 9 1 < 365 ∧
    get_data "objects" fsC9 ⟨2026, 10, 12⟩ envW =
      (.error (.readError "objects_2026-09-01.csv"), fsC9, []) ∧
    ∀ df : DataFrame,
      (Except.error (SatErr.readError "objects_2026-09-01.csv") :
        Except SatErr DataFrame) ≠ .ok df :=
  ⟨rfl, rfl, by decide, rfl, fun _ h => Except.noConfusion h⟩

/-- C9 amended: a candidate file whose name has no date-shaped substring is
silently skipped, and when every candidate is of that kind the call falls
through to a fresh fetch (with a cache write on success); but a candidate
whose name embeds a date-shaped, calendar-invalid stamp aborts the call
with `ValueError`, and an unreadable file is NOT excluded — when selected
as the freshest candidate its read failure aborts `get_data`. -/
theorem c9_no_date_skip (database : String) (fs : FileSys) (now : Date)
    (env : Transport)
    (hwf : ∀ f ∈ candidateFiles fs database, findLastDate f.name = none) :
    (∀ df2 log, retrieve_discos_data database env = (.ok df2, log) →
      get_data database fs now env =
        (.ok df2, writeFS fs (cacheName database now) df2, log)) ∧
    (∀ e log, retrieve_discos_data database env = (.error e, log) →
      get_data database fs now env = (.error e, fs, log)) := by
  constructor
  · intro df2 log h
    by_cases hc : candidateFiles fs database = []
    · have hie : (candidateFiles fs database).isEmpty = true := by rw [hc]; rfl
      simp only [get_data, hie, if_true, h]
    · have hie : (candidateFiles fs database).isEmpty = false := by
        cases hl : candidateFiles fs database with
        | nil => exact absurd hl hc
        | cons a as => rfl
      have hscan := scanCandidates_allnone now (candidateFiles fs database)
        365 none hwf
      simp only [get_data, hie, Bool.false_eq_true, if_false, hscan]
      rw [if_neg (lt_irrefl (365 : Int))]
      simp only [h]
  · intro e log h
    by_cases hc : candidateFiles fs database = []
    · have hie : (candidateFiles fs database).isEmpty = true := by rw [hc]; rfl
      simp only [get_data, hie, if_true, h]
    · have hie : (candidateFiles fs database).isEmpty = false := by
        cases hl : candidateFiles fs database with
        | nil => exact absurd hl hc
        | cons a as => rfl
      have hscan := scanCandidates_allnone now (candidateFiles fs database)
        365 none hwf
      simp only [get_data, hie, Bool.false_eq_true, if_false, hscan]
      rw [if_neg (lt_irrefl (365 : Int))]
      simp only [h]

/-- Closed instance of `c9_no_date_skip`: a candidate with no date in its
name is skipped and the call falls through to a fresh fetch (which here
fails during normalization of the empty page). -/
theorem c9_no_date_skip_witness :
    get_data "objects" fsC9W ⟨2026, 10, 12⟩ envW =
      (.error (.keyErrorCols objectsDropCols), fsC9W, [(1, 0)]) := by
  have hcand : candidateFiles fsC9W "objects" =
      [⟨"objects_recent.csv", some ⟨[], []⟩⟩] := rfl
  refine (c9_no_date_skip "objects" fsC9W ⟨2026, 10, 12⟩ envW ?_).2
    (.keyErrorCols objectsDropCols) [(1, 0)] rfl
  intro f hf
  rw [hcand] at hf
  rcases List.mem_singleton.mp hf with rfl
  rfl

end SatData
